import Mathlib

/-!
# baton-eks: verification of the identity-mapping cache and binding reconciliation

Shallow embedding of the core of the baton-eks connector:

* the identity-mapping cache (`pkg/client/client.go`: `LoadIdentityCacheMaps`,
  `getAwsAuthMappings`; `pkg/client/access_entries.go`: `getAccessEntriesMappings`),
* the RBAC binding grant/revoke reconciliation
  (`pkg/connector/provisioning_common.go`, `role_provisioning.go`,
  `cluster_role_provisioning.go`),
* the access-policy scope merger (`pkg/connector/access_policies.go`:
  `parseEntitlementScope`, `Grant`, `Revoke`).

Go maps from string to string-slice are embedded as total functions
`String → List String` (a missing key reads as the empty slice, which is
exactly how the Go code reads them: indexing a missing key yields nil and
`append(nil, xs...)` starts from empty).  Network calls are embedded by
passing their results in as parameters and recording the mutating calls the
code issues in an explicit trace, so that "no call was made" is a statement
about the trace.
-/

namespace BatonEks

/-! ## String search helpers

`strings.Index` / `strings.Contains` from the Go standard library, for a
non-empty pattern, modelled on character lists.  `splitFirst pat l` returns
the suffix of `l` that follows the first occurrence of `pat`
(`l[idx+len(pat):]` in Go terms), or `none` when `strings.Index` would
return `-1`. -/

def splitFirst (pat : List Char) : List Char → Option (List Char)
  | [] => none
  | c :: rest =>
    if pat.isPrefixOf (c :: rest) then some (List.drop pat.length (c :: rest))
    else splitFirst pat rest

/-- `hasOccur pat l` is true when `pat` occurs as a contiguous sublist of `l`
(the boolean of `strings.Contains` for a non-empty pattern). -/
def hasOccur (pat : List Char) : List Char → Bool
  | [] => pat.isPrefixOf ([] : List Char)
  | c :: rest => pat.isPrefixOf (c :: rest) || hasOccur pat rest

/-- `strings.Contains(s, sub)` for the non-empty patterns used in the code. -/
def containsSub (s sub : String) : Bool :=
  hasOccur sub.data s.data

/-! ## ARN classifier (`pkg/client/access_entries.go`: `isUserOrRoleArn`) -/

def isUserOrRoleArn (arn : String) : Bool :=
  if ¬ ("arn:aws:iam::".data.isPrefixOf arn.data) then false
  else containsSub arn ":user/" || containsSub arn ":role/"

/-! ## Go string-to-slice maps -/

/-- The value type of the identity maps: cluster username / group →
list of principal ARNs. -/
abbrev StrListMap := String → List String

/-- The empty map (every key reads as nil/empty, as in Go). -/
def emptyMap : StrListMap := fun _ => []

/-- `m[k] = append(m[k], v)` on a Go `map[string][]string`. -/
def mapAdd (m : StrListMap) (k v : String) : StrListMap :=
  fun x => if x = k then m k ++ [v] else m x

/-! ## Bootstrap-config (aws-auth) reader
(`pkg/client/client.go`: `getAwsAuthMappings`, and the row types of
`pkg/client/models.go`).

The Go loop builds `userMap` and `groupMap` in a single pass over the parsed
`mapUsers` rows and then a single pass over the parsed `mapRoles` rows; the
two maps are written independently, so each is embedded as its own fold over
the same row lists. -/

structure mapUser where
  userARN : String
  username : String
  groups : List String
deriving DecidableEq, Repr

structure mapRole where
  roleARN : String
  username : String
  groups : List String
deriving DecidableEq, Repr

/-- Per-row users-map update shared by the `mapUsers` and `mapRoles` loops:
`if u.Username != "" { userMap[u.Username] = append(userMap[u.Username], arn) }`. -/
def awsAuthUserStep (m : StrListMap) (arn username : String) : StrListMap :=
  if username ≠ "" then mapAdd m username arn else m

/-- Per-row groups-map update: for each group of the row,
`groupMap[group] = append(groupMap[group], arn)`. -/
def awsAuthGroupStep (m : StrListMap) (arn : String) (groups : List String) : StrListMap :=
  groups.foldl (fun acc g => mapAdd acc g arn) m

/-- The users map produced by `getAwsAuthMappings` from parsed `mapUsers` and
`mapRoles` rows. -/
def awsAuthUsersMap (users : List mapUser) (roles : List mapRole) : StrListMap :=
  let afterUsers := users.foldl (fun m u => awsAuthUserStep m u.userARN u.username) emptyMap
  roles.foldl (fun m r => awsAuthUserStep m r.roleARN r.username) afterUsers

/-- The groups map produced by `getAwsAuthMappings`. -/
def awsAuthGroupsMap (users : List mapUser) (roles : List mapRole) : StrListMap :=
  let afterUsers := users.foldl (fun m u => awsAuthGroupStep m u.userARN u.groups) emptyMap
  roles.foldl (fun m r => awsAuthGroupStep m r.roleARN r.groups) afterUsers

/-! ## Access-entry reader
(`pkg/client/access_entries.go`: `getAccessEntriesMappings`).

The input list stands for the access entries the paginated listing returned
and `DescribeAccessEntry` successfully described (entries whose describe call
fails are skipped by the code before reaching the logic embedded here). -/

structure accessEntry where
  principalArn : String
  type : Option String
  username : Option String
  kubernetesGroups : List String
deriving DecidableEq, Repr

/-- Whether an access entry passes the two skip checks: it must be an IAM
user/role ARN and a STANDARD-type entry. -/
def accessEntryEligible (e : accessEntry) : Bool :=
  isUserOrRoleArn e.principalArn && e.type == some "STANDARD"

/-- Per-entry users-map update: use the entry username when present and
non-empty, otherwise self-map the principal ARN. -/
def accessEntryUserStep (m : StrListMap) (e : accessEntry) : StrListMap :=
  if accessEntryEligible e then
    match e.username with
    | some u => if u ≠ "" then mapAdd m u e.principalArn else mapAdd m e.principalArn e.principalArn
    | none => mapAdd m e.principalArn e.principalArn
  else m

/-- Per-entry groups-map update. -/
def accessEntryGroupStep (m : StrListMap) (e : accessEntry) : StrListMap :=
  if accessEntryEligible e then e.kubernetesGroups.foldl (fun acc g => mapAdd acc g e.principalArn) m
  else m

/-- The users map produced by `getAccessEntriesMappings`. -/
def accessEntriesUsersMap (entries : List accessEntry) : StrListMap :=
  entries.foldl accessEntryUserStep emptyMap

/-- The groups map produced by `getAccessEntriesMappings`. -/
def accessEntriesGroupsMap (entries : List accessEntry) : StrListMap :=
  entries.foldl accessEntryGroupStep emptyMap

/-! ## Identity mapping cache (`pkg/client/client.go`: `LoadIdentityCacheMaps`)

The mutable fields of `EKSClient` that the function touches are embedded as
`CacheState`; time is in seconds.  The two mapping sources are passed in as
`Option` results (`none` = the source returned an error together with nil
maps).  The returned trace lists the sources the call actually invoked.
`cacheUsersMap`/`cacheGroupsMap` are initialized non-nil by both constructors
and are never set to nil (Go `clear` keeps a map non-nil), so the nil checks
guarding the freshness test are always true and the freshness test reduces to
`now < expiry`. -/

structure SrcMaps where
  users : StrListMap
  groups : StrListMap

structure CacheState where
  cacheUsersMap : StrListMap
  cacheGroupsMap : StrListMap
  idCacheExpiry : Nat

inductive SrcCall
  | awsAuth
  | accessEntries
deriving DecidableEq, Repr

/-- `cacheTTL = 5 * time.Minute`, in seconds. -/
def cacheTTL : Nat := 5 * 60

/-- `LoadIdentityCacheMaps`.  On a warm cache it returns immediately.
Otherwise it clears both cached maps in place, invokes both sources, and
either fails (both sources failed; the cleared maps and the old expiry are
what remains) or installs the merged snapshot with a fresh expiry.  Each
merge loop appends a source map's lists key-wise into the freshly created
result maps. -/
def LoadIdentityCacheMaps (st : CacheState) (now : Nat)
    (awsAuthRes accessRes : Option SrcMaps) :
    Except Unit Unit × CacheState × List SrcCall :=
  if now < st.idCacheExpiry then
    (Except.ok (), st, [])
  else
    let awsU := match awsAuthRes with | some s => s.users | none => emptyMap
    let awsG := match awsAuthRes with | some s => s.groups | none => emptyMap
    let accU := match accessRes with | some s => s.users | none => emptyMap
    let accG := match accessRes with | some s => s.groups | none => emptyMap
    match awsAuthRes, accessRes with
    | none, none =>
      (Except.error (),
       { cacheUsersMap := emptyMap, cacheGroupsMap := emptyMap,
         idCacheExpiry := st.idCacheExpiry },
       [SrcCall.awsAuth, SrcCall.accessEntries])
    | _, _ =>
      (Except.ok (),
       { cacheUsersMap := fun k => awsU k ++ accU k,
         cacheGroupsMap := fun k => awsG k ++ accG k,
         idCacheExpiry := now + cacheTTL },
       [SrcCall.awsAuth, SrcCall.accessEntries])

/-! ## RBAC bindings (`pkg/connector/provisioning_common.go`)

A `Binding` stands for a RoleBinding or a ClusterRoleBinding whose roleRef
already matches the role being reconciled (the binding provider's contract);
only its name and subject list matter to the reconciliation logic.  The
cluster API is embedded by state transformation on the list of matching
bindings: `Create` appends, `Update` replaces the object with the given name,
`Delete` removes the object with the given name (not-found deletes are
treated as success by the code, which removal also models). -/

structure Subject where
  kind : String
  name : String
deriving DecidableEq, Repr

structure Binding where
  name : String
  subjects : List Subject
deriving DecidableEq, Repr

def subjectKindUser : String := "User"

/-- `userAlreadyHasAccess`: a subject with the username and kind "User" is in
the list (the Go function short-circuits on an empty list, which `any` also
does). -/
def userAlreadyHasAccess (subjects : List Subject) (username : String) : Bool :=
  subjects.any fun s => s.name == username && s.kind == subjectKindUser

/-- `filterSubjects` removes every subject matching the username (kind
"User") from the list. -/
def filterSubjects (subjects : List Subject) (username : String) : List Subject :=
  subjects.filter fun s => !(s.name == username && s.kind == subjectKindUser)

/-- `getExistingBindingForUser` / `getExistingClusterRoleBindingForUser`:
first matching binding that lists the username as a "User" subject. -/
def getExistingBindingForUser (bindings : List Binding) (username : String) : Option Binding :=
  bindings.find? fun b => userAlreadyHasAccess b.subjects username

/-- The subject appended or created by a grant:
`{Kind: "User", Name: username, APIGroup: rbacv1.GroupName}`. -/
def newUserSubject (username : String) : Subject :=
  { kind := subjectKindUser, name := username }

/-- Outcomes of the provisioning operations.  `applied` is the Go
`(nil, nil)` return; the other two are the `GrantAlreadyExists` /
`GrantAlreadyRevoked` annotation returns. -/
inductive ProvisionOutcome
  | applied
  | alreadyExists
  | alreadyRevoked
deriving DecidableEq, Repr

/-- The decision the grant loop reaches. -/
inductive GrantAction
  | alreadySatisfied
  | update (b : Binding)
  | create
deriving DecidableEq, Repr

/-- The shared loop of `handleClusterRoleBinding` / `handleRoleBinding`
(`cluster_role_provisioning.go` and `role_provisioning.go`): walk the
matching bindings remembering the one whose name equals the canonical
binding name, and return already-satisfied as soon as any binding lists the
username.  `acc` is the `bindingToUpdate` pointer. -/
def grantScan (bindingName username : String) :
    List Binding → Option Binding → GrantAction
  | [], acc =>
    match acc with
    | some b => GrantAction.update b
    | none => GrantAction.create
  | b :: rest, acc =>
    let acc' := if b.name == bindingName then some b else acc
    if userAlreadyHasAccess b.subjects username then GrantAction.alreadySatisfied
    else grantScan bindingName username rest acc'

/-- Shared body of `handleClusterRoleBinding` and both `handleRoleBinding`
variants, after the canonical binding name has been computed (the variants
differ only in how the name is derived and which create/update API they
call).  Returns the outcome and the new set of matching bindings. -/
def handleBindingGrant (bindingName username : String) (bindings : List Binding) :
    ProvisionOutcome × List Binding :=
  match grantScan bindingName username bindings none with
  | GrantAction.alreadySatisfied => (ProvisionOutcome.alreadyExists, bindings)
  | GrantAction.update b =>
    (ProvisionOutcome.applied,
     bindings.map fun x =>
       if x.name == b.name then { x with subjects := b.subjects ++ [newUserSubject username] }
       else x)
  | GrantAction.create =>
    (ProvisionOutcome.applied, bindings ++ [{ name := bindingName, subjects := [newUserSubject username] }])

/-- `handleBindingUpdateOrDelete`: delete the binding when no subjects
remain, otherwise update it with the remaining subjects. -/
def handleBindingUpdateOrDelete (b : Binding) (newSubjects : List Subject)
    (bindings : List Binding) : List Binding :=
  if newSubjects.isEmpty then
    bindings.filter fun x => x.name != b.name
  else
    bindings.map fun x => if x.name == b.name then { x with subjects := newSubjects } else x

/-- Shared body of `revokeClusterRoleBinding` / `revokeRoleBinding` /
`handleRevokeRoleBinding`: find the binding containing the user, filter the
user out of its subjects, then update or delete. -/
def handleRevokeBinding (username : String) (bindings : List Binding) :
    ProvisionOutcome × List Binding :=
  match getExistingBindingForUser bindings username with
  | none => (ProvisionOutcome.alreadyRevoked, bindings)
  | some b =>
    (ProvisionOutcome.applied,
     handleBindingUpdateOrDelete b (filterSubjects b.subjects username) bindings)

/-- Number of subjects matching the username (kind "User") across a binding
list. -/
def countUserSubjects (bindings : List Binding) (username : String) : Nat :=
  (bindings.map fun b =>
    b.subjects.countP fun s => s.name == username && s.kind == subjectKindUser).sum

/-! ## Entitlement scope parsing (`pkg/connector/access_policies.go`) -/

/-- `ekstypes.AccessScopeType`: the two values the connector uses. -/
inductive ScopeType
  | cluster
  | namespaceScoped
deriving DecidableEq, Repr

/-- `ekstypes.AccessScope`: a scope type plus (for namespace scopes) the
namespace list. -/
structure EksAccessScope where
  type : ScopeType
  namespaces : List String
deriving DecidableEq, Repr

def clusterScope : EksAccessScope := { type := ScopeType.cluster, namespaces := [] }

/-- The separator `":assigned:"` as a character list. -/
def assignedSep : List Char := ":assigned:".data

/-- `parseEntitlementScope`: entitlement identifiers look like
`access_policy:policy_arn:assigned:scope`; everything after the first
`":assigned:"` is the scope value ("cluster", or a namespace name).  When the
separator is absent the function falls back to cluster scope. -/
def parseEntitlementScope (entitlementName : String) : EksAccessScope :=
  match splitFirst assignedSep entitlementName.data with
  | none => clusterScope
  | some rest =>
    let scopeValue : String := String.mk rest
    if scopeValue = "cluster" then clusterScope
    else { type := ScopeType.namespaceScoped, namespaces := [scopeValue] }

/-- The structured entitlement-identifier grammar the spec documents
(kind, resource id, `assigned`, scope), matching the identifiers the
`Entitlements` listing produces, e.g.
`access_policy:arn:aws:eks::aws:cluster-access-policy/X:assigned:cluster`. -/
def scopedEntitlementId (kind objectId scope : String) : String :=
  kind ++ ":" ++ objectId ++ ":assigned:" ++ scope

/-! ## Access-policy scope merger (`pkg/connector/access_policies.go`:
`accessPolicyBuilder.Grant` / `accessPolicyBuilder.Revoke`)

The EKS control plane is embedded in `PolicyEnv`: the principal's current
association for the policy being reconciled and the success of each external
call.  `createEntryOk = true` covers both a successful `CreateAccessEntry`
and an already-exists error (which `isAccessEntryAlreadyExistsError`
tolerates).  Mutating and scope-reading calls the code issues are recorded in
the returned trace; the third component is the principal's association after
the call. -/

inductive PolicyCall
  | createAccessEntry
  | getPolicyScope
  | associate (scope : EksAccessScope)
  | disassociate
deriving DecidableEq, Repr

structure PolicyEnv where
  association : Option EksAccessScope
  createEntryOk : Bool
  associateOk : Bool
  disassociateOk : Bool
deriving DecidableEq, Repr

/-- `AssociateAccessPolicy` tail of the grant path: issue the associate call;
on success the association becomes the requested scope. -/
def associateStep (scope : EksAccessScope) (calls : List PolicyCall) (env : PolicyEnv) :
    Except String ProvisionOutcome × List PolicyCall × Option EksAccessScope :=
  if env.associateOk then
    (Except.ok ProvisionOutcome.applied, calls ++ [PolicyCall.associate scope], some scope)
  else
    (Except.error "failed to create policy association",
     calls ++ [PolicyCall.associate scope], env.association)

/-- `accessPolicyBuilder.Grant`. -/
def accessPolicyGrant (principalType entitlementId : String) (env : PolicyEnv) :
    Except String ProvisionOutcome × List PolicyCall × Option EksAccessScope :=
  if principalType ≠ "iam_user" then
    (Except.error "principal is not an IAM user", [], env.association)
  else
    let accessScope := parseEntitlementScope entitlementId
    if ¬ env.createEntryOk then
      (Except.error "failed to create access entry",
       [PolicyCall.createAccessEntry], env.association)
    else
      let calls := [PolicyCall.createAccessEntry]
      match accessScope.type with
      | ScopeType.namespaceScoped =>
        let calls := calls ++ [PolicyCall.getPolicyScope]
        match env.association with
        | some policyScope =>
          match policyScope.type with
          | ScopeType.cluster =>
            (Except.error
              "try to grant a namespace scoped policy, but user already has a cluster scoped policy",
             calls, env.association)
          | ScopeType.namespaceScoped =>
            if accessScope.namespaces.headD "" ∈ policyScope.namespaces then
              (Except.ok ProvisionOutcome.alreadyExists, calls, env.association)
            else
              associateStep
                { accessScope with namespaces := accessScope.namespaces ++ policyScope.namespaces }
                calls env
        | none => associateStep accessScope calls env
      | ScopeType.cluster => associateStep accessScope calls env

/-- `DisassociateAccessPolicy` tail of the revoke path: on success the
association is gone. -/
def disassociateStep (calls : List PolicyCall) (env : PolicyEnv) :
    Except String ProvisionOutcome × List PolicyCall × Option EksAccessScope :=
  if env.disassociateOk then
    (Except.ok ProvisionOutcome.applied, calls ++ [PolicyCall.disassociate], none)
  else
    (Except.error "failed to disassociate access policy",
     calls ++ [PolicyCall.disassociate], env.association)

/-- `accessPolicyBuilder.Revoke`. -/
def accessPolicyRevoke (principalType entitlementId : String) (env : PolicyEnv) :
    Except String ProvisionOutcome × List PolicyCall × Option EksAccessScope :=
  if principalType ≠ "iam_user" then
    (Except.error "principal is not an IAM user", [], env.association)
  else
    let accessScope := parseEntitlementScope entitlementId
    match accessScope.type with
    | ScopeType.namespaceScoped =>
      let calls := [PolicyCall.getPolicyScope]
      match env.association with
      | none => (Except.ok ProvisionOutcome.alreadyRevoked, calls, env.association)
      | some policyScope =>
        match policyScope.type with
        | ScopeType.cluster =>
          (Except.error
            "trying to revoke a namespace scoped policy, but user already has a cluster scoped policy",
           calls, env.association)
        | ScopeType.namespaceScoped =>
          let target := accessScope.namespaces.headD ""
          if target ∈ policyScope.namespaces then
            if policyScope.namespaces.length > 1 then
              associateStep
                { type := ScopeType.namespaceScoped,
                  namespaces := policyScope.namespaces.filter fun ns => ns ≠ target }
                calls env
            else disassociateStep calls env
          else (Except.ok ProvisionOutcome.alreadyRevoked, calls, env.association)
    | ScopeType.cluster => disassociateStep [] env

/-! ## Role / cluster-role provisioning entry points
(`pkg/connector/role_provisioning.go` and the cluster-role
`Grant`/`Revoke`).

The aws-auth side of the world is embedded in `AwsAuthEnv`: the result of
`GetMapUserFromAWSAuthConfigMap` for the principal (`lookup`, an error or an
optional existing mapping's username) and whether an `AddIAMUserMapping`
call would succeed (`addOk`).  The cluster side is `BindingWorld`: the
matching RoleBindings (for the namespace-scoped paths) and the matching
ClusterRoleBindings, as returned by the binding provider.  The boolean in
the result records whether an `AddIAMUserMapping` write was issued. -/

structure AwsAuthEnv where
  lookup : Except String (Option String)
  addOk : Bool
deriving Repr

structure BindingWorld where
  roleBindings : List Binding
  clusterRoleBindings : List Binding
deriving DecidableEq, Repr

/-- Modelled from the spec: `getNamespaceFromEntitlementID` is used by the
cluster-role `Grant`/`Revoke` but its definition is not among the provided
sources.  Per the spec, the namespace is extracted from the structured
entitlement identifier and an empty result means cluster scope; the
identifiers produced by the cluster-role `Entitlements` listing are
`cluster_role:<name>:all:member` (cluster scope) and
`cluster_role:<name>:<namespace>:member`. -/
def splitOnColon : List Char → List (List Char)
  | [] => [[]]
  | c :: rest =>
    if c = ':' then [] :: splitOnColon rest
    else
      match splitOnColon rest with
      | [] => [[c]]
      | seg :: segs => (c :: seg) :: segs

def getNamespaceFromEntitlementID (entitlementId : String) : Except String String :=
  match ((splitOnColon entitlementId.data).map String.mk).reverse with
  | "member" :: scopeSeg :: _ :: _ =>
    if scopeSeg = "all" then Except.ok "" else Except.ok scopeSeg
  | _ => Except.error "failed to get namespace from entitlement ID"

/-- `getOrCreateUsername` step shared by the grant paths: use the existing
aws-auth mapping's username, or add a self-mapping (ARN as username).
Returns the username and whether a mapping was added. -/
def resolveOrCreateUsername (principalArn : String) (env : AwsAuthEnv) :
    Except String (String × Bool) :=
  match env.lookup with
  | Except.error e => Except.error e
  | Except.ok (some username) => Except.ok (username, false)
  | Except.ok none =>
    if env.addOk then Except.ok (principalArn, true)
    else Except.error "failed to add IAM user mapping"

/-- `clusterRoleBuilder.Grant`: reject non-IAM-user principals, resolve (or
create) the aws-auth username, determine the scope from the entitlement
identifier, and reconcile the matching ClusterRoleBindings (cluster scope)
or RoleBindings (namespace scope).  `clusterRoleName` is
`entitlement.Resource.Id.Resource`. -/
def clusterRoleGrantOp (principalType principalArn clusterRoleName entitlementId : String)
    (env : AwsAuthEnv) (world : BindingWorld) :
    Except String ProvisionOutcome × BindingWorld × Bool :=
  if principalType ≠ "iam_user" then
    (Except.error "principal type is not supported", world, false)
  else if entitlementId = "" then
    (Except.error "invalid entitlement ID", world, false)
  else
    match resolveOrCreateUsername principalArn env with
    | Except.error e => (Except.error e, world, false)
    | Except.ok (username, added) =>
      match getNamespaceFromEntitlementID entitlementId with
      | Except.error e => (Except.error e, world, added)
      | Except.ok ns =>
        if ns = "" then
          let r := handleBindingGrant ("baton-" ++ clusterRoleName ++ "-binding") username
            world.clusterRoleBindings
          (Except.ok r.1, { world with clusterRoleBindings := r.2 }, added)
        else
          let r := handleBindingGrant ("baton-" ++ clusterRoleName ++ "-" ++ ns ++ "-binding")
            username world.roleBindings
          (Except.ok r.1, { world with roleBindings := r.2 }, added)

/-- `roleBuilder.Grant`: the namespace and role name come from
`parseRoleResourceID`, whose definition is not among the provided sources;
its result is passed in as `parsed`. -/
def roleGrantOp (principalType principalArn : String)
    (parsed : Except String (String × String)) (entitlementId : String)
    (env : AwsAuthEnv) (world : BindingWorld) :
    Except String ProvisionOutcome × BindingWorld × Bool :=
  if principalType ≠ "iam_user" then
    (Except.error "principal type is not supported", world, false)
  else
    match parsed with
    | Except.error e => (Except.error e, world, false)
    | Except.ok (ns, roleName) =>
      if entitlementId = "" then (Except.error "invalid entitlement ID", world, false)
      else
        match resolveOrCreateUsername principalArn env with
        | Except.error e => (Except.error e, world, false)
        | Except.ok (username, added) =>
          let r := handleBindingGrant ("baton-" ++ roleName ++ "-" ++ ns ++ "-binding")
            username world.roleBindings
          (Except.ok r.1, { world with roleBindings := r.2 }, added)

/-- `clusterRoleBuilder.Revoke`: no principal-type check.  Looks up the
aws-auth mapping; a missing mapping is already-revoked.  Otherwise the
matching ClusterRoleBindings (cluster scope) or RoleBindings (namespace
scope) are reconciled.  The grant's entitlement and principal references are
assumed well-formed (the nil checks the code performs on them are outside
this embedding); `principalType` is listed to make visible that the code
never consults it. -/
def clusterRoleRevokeOp (_principalType _principalArn _clusterRoleName entitlementId : String)
    (lookup : Except String (Option String)) (world : BindingWorld) :
    Except String ProvisionOutcome × BindingWorld :=
  if entitlementId = "" then (Except.error "invalid entitlement ID", world)
  else
    match getNamespaceFromEntitlementID entitlementId with
    | Except.error e => (Except.error e, world)
    | Except.ok ns =>
      match lookup with
      | Except.error e => (Except.error e, world)
      | Except.ok none => (Except.ok ProvisionOutcome.alreadyRevoked, world)
      | Except.ok (some username) =>
        if ns = "" then
          let r := handleRevokeBinding username world.clusterRoleBindings
          (Except.ok r.1, { world with clusterRoleBindings := r.2 })
        else
          let r := handleRevokeBinding username world.roleBindings
          (Except.ok r.1, { world with roleBindings := r.2 })

/-- `roleBuilder.Revoke`: same shape for namespaced roles; also performs no
principal-type check. -/
def roleRevokeOp (_principalType _principalArn : String)
    (parsed : Except String (String × String))
    (lookup : Except String (Option String)) (world : BindingWorld) :
    Except String ProvisionOutcome × BindingWorld :=
  match parsed with
  | Except.error e => (Except.error e, world)
  | Except.ok (_ns, _roleName) =>
    match lookup with
    | Except.error e => (Except.error e, world)
    | Except.ok none => (Except.ok ProvisionOutcome.alreadyRevoked, world)
    | Except.ok (some username) =>
      let r := handleRevokeBinding username world.roleBindings
      (Except.ok r.1, { world with roleBindings := r.2 })

/-! ## Claims about the identity-mapping cache (C1, C5, C6) -/

/-- C6: while the cached maps are present and the current time is before the
stored expiry, `LoadIdentityCacheMaps` returns success immediately, invokes
neither mapping source, and leaves the snapshot and expiry unchanged; and
every successful refresh sets the expiry to the refresh time plus the fixed
5-minute TTL. -/
theorem c6_cache_ttl (st : CacheState) (now : Nat) (awsAuthRes accessRes : Option SrcMaps) :
    (now < st.idCacheExpiry →
      LoadIdentityCacheMaps st now awsAuthRes accessRes = (Except.ok (), st, [])) ∧
    (¬ now < st.idCacheExpiry → (awsAuthRes.isSome ∨ accessRes.isSome) →
      (LoadIdentityCacheMaps st now awsAuthRes accessRes).1 = Except.ok () ∧
      (LoadIdentityCacheMaps st now awsAuthRes accessRes).2.1.idCacheExpiry = now + cacheTTL) ∧
    cacheTTL = 5 * 60 := by
  refine ⟨fun h => by simp [LoadIdentityCacheMaps, h], fun h hsome => ?_, rfl⟩
  cases awsAuthRes with
  | some s => simp [LoadIdentityCacheMaps, h]
  | none =>
    cases accessRes with
    | some t => simp [LoadIdentityCacheMaps, h]
    | none => simp at hsome

theorem c6_cache_ttl_witness :
    LoadIdentityCacheMaps
        { cacheUsersMap := emptyMap, cacheGroupsMap := emptyMap, idCacheExpiry := 10 } 3 none none
      = (Except.ok (),
         { cacheUsersMap := emptyMap, cacheGroupsMap := emptyMap, idCacheExpiry := 10 }, []) ∧
    (LoadIdentityCacheMaps
        { cacheUsersMap := emptyMap, cacheGroupsMap := emptyMap, idCacheExpiry := 10 } 20
        (some { users := emptyMap, groups := emptyMap }) none).2.1.idCacheExpiry = 20 + cacheTTL :=
  ⟨(c6_cache_ttl _ 3 none none).1 (by decide),
   ((c6_cache_ttl _ 20 (some { users := emptyMap, groups := emptyMap }) none).2.1
     (by decide) (Or.inl rfl)).2⟩

/-- C5: whenever the refresh actually runs and at least one source succeeds,
the installed snapshot is the key-wise union of the two sources' maps with
the aws-auth list concatenated before the access-entry list; when exactly one
source fails the snapshot equals the succeeding source's maps alone. -/
theorem c5_merge_policy (st : CacheState) (now : Nat) (awsAuthRes accessRes : Option SrcMaps)
    (hexp : ¬ now < st.idCacheExpiry) (hsome : awsAuthRes.isSome ∨ accessRes.isSome) :
    (LoadIdentityCacheMaps st now awsAuthRes accessRes).1 = Except.ok () ∧
    (∀ k, (LoadIdentityCacheMaps st now awsAuthRes accessRes).2.1.cacheUsersMap k =
      (match awsAuthRes with | some s => s.users k | none => []) ++
      (match accessRes with | some s => s.users k | none => [])) ∧
    (∀ k, (LoadIdentityCacheMaps st now awsAuthRes accessRes).2.1.cacheGroupsMap k =
      (match awsAuthRes with | some s => s.groups k | none => []) ++
      (match accessRes with | some s => s.groups k | none => [])) ∧
    (awsAuthRes = none → ∀ s, accessRes = some s →
      (∀ k, (LoadIdentityCacheMaps st now awsAuthRes accessRes).2.1.cacheUsersMap k = s.users k) ∧
      (∀ k, (LoadIdentityCacheMaps st now awsAuthRes accessRes).2.1.cacheGroupsMap k = s.groups k)) ∧
    (accessRes = none → ∀ s, awsAuthRes = some s →
      (∀ k, (LoadIdentityCacheMaps st now awsAuthRes accessRes).2.1.cacheUsersMap k = s.users k) ∧
      (∀ k, (LoadIdentityCacheMaps st now awsAuthRes accessRes).2.1.cacheGroupsMap k = s.groups k)) := by
  cases awsAuthRes with
  | some s =>
    cases accessRes with
    | some t => simp [LoadIdentityCacheMaps, hexp, emptyMap]
    | none => simp [LoadIdentityCacheMaps, hexp, emptyMap]
  | none =>
    cases accessRes with
    | some t => simp [LoadIdentityCacheMaps, hexp, emptyMap]
    | none => simp at hsome

theorem c5_merge_policy_witness :
    (LoadIdentityCacheMaps
        { cacheUsersMap := emptyMap, cacheGroupsMap := emptyMap, idCacheExpiry := 0 } 1
        (some { users := fun _ => ["arn:a"], groups := emptyMap })
        (some { users := fun _ => ["arn:b"], groups := emptyMap })).2.1.cacheUsersMap "u"
      = ["arn:a", "arn:b"] := by
  have h := (c5_merge_policy
    { cacheUsersMap := emptyMap, cacheGroupsMap := emptyMap, idCacheExpiry := 0 } 1
    (some { users := fun _ => ["arn:a"], groups := emptyMap })
    (some { users := fun _ => ["arn:b"], groups := emptyMap })
    (by decide) (Or.inl rfl)).2.1 "u"
  simpa using h

/-- C1 counterexample: when both sources fail, the call does return an error
and keeps the expiry, but the previously installed snapshot is NOT left in
place: the cached maps were cleared in place before the refresh attempt, so
the prior contents are gone. -/
theorem c1_counterexample :
    (LoadIdentityCacheMaps
        { cacheUsersMap := fun _ => ["arn:aws:iam::111:user/alice"],
          cacheGroupsMap := emptyMap, idCacheExpiry := 0 } 1 none none).1 = Except.error () ∧
    (LoadIdentityCacheMaps
        { cacheUsersMap := fun _ => ["arn:aws:iam::111:user/alice"],
          cacheGroupsMap := emptyMap, idCacheExpiry := 0 } 1 none none).2.1.idCacheExpiry = 0 ∧
    (LoadIdentityCacheMaps
        { cacheUsersMap := fun _ => ["arn:aws:iam::111:user/alice"],
          cacheGroupsMap := emptyMap, idCacheExpiry := 0 } 1 none none).2.1.cacheUsersMap "alice"
      = [] ∧
    ({ cacheUsersMap := fun _ => ["arn:aws:iam::111:user/alice"],
       cacheGroupsMap := emptyMap, idCacheExpiry := 0 : CacheState }).cacheUsersMap "alice"
      = ["arn:aws:iam::111:user/alice"] ∧
    ((["arn:aws:iam::111:user/alice"] : List String) == []) = false := by
  refine ⟨rfl, rfl, rfl, rfl, rfl⟩

/-- C1 (amended): when both sources fail, the refresh returns an error and
leaves the expiry unchanged, but the cached maps have been cleared at the
start of the refresh, so the previous snapshot contents are lost (both maps
read empty afterwards). -/
theorem c1_both_sources_fail (st : CacheState) (now : Nat)
    (hexp : ¬ now < st.idCacheExpiry) :
    LoadIdentityCacheMaps st now none none =
      (Except.error (),
       { cacheUsersMap := emptyMap, cacheGroupsMap := emptyMap,
         idCacheExpiry := st.idCacheExpiry },
       [SrcCall.awsAuth, SrcCall.accessEntries]) := by
  simp [LoadIdentityCacheMaps, hexp]

theorem c1_both_sources_fail_witness :
    LoadIdentityCacheMaps
        { cacheUsersMap := fun _ => ["arn:aws:iam::111:user/alice"],
          cacheGroupsMap := emptyMap, idCacheExpiry := 0 } 1 none none =
      (Except.error (),
       { cacheUsersMap := emptyMap, cacheGroupsMap := emptyMap, idCacheExpiry := 0 },
       [SrcCall.awsAuth, SrcCall.accessEntries]) :=
  c1_both_sources_fail _ 1 (by decide)

/-! ## Claims about binding reconciliation (C2, C3) -/

/-- Specification of the `bindingToUpdate` accumulator of `grantScan`: the
last binding seen whose name is the canonical binding name. -/
def lastNamed (bindingName : String) (bindings : List Binding) (acc : Option Binding) :
    Option Binding :=
  bindings.foldl (fun a b => if b.name == bindingName then some b else a) acc

theorem grantScan_of_exists (bindingName username : String) (bindings : List Binding)
    (acc : Option Binding)
    (h : ∃ b ∈ bindings, userAlreadyHasAccess b.subjects username = true) :
    grantScan bindingName username bindings acc = GrantAction.alreadySatisfied := by
  induction bindings generalizing acc with
  | nil => simp at h
  | cons b rest ih =>
    by_cases hb : userAlreadyHasAccess b.subjects username = true
    · simp [grantScan, hb]
    · have hrest : ∃ x ∈ rest, userAlreadyHasAccess x.subjects username = true := by
        rcases h with ⟨x, hx, hxx⟩
        rcases List.mem_cons.mp hx with rfl | hmem
        · exact absurd hxx hb
        · exact ⟨x, hmem, hxx⟩
      simp [grantScan, hb, ih _ hrest]

theorem grantScan_fresh (bindingName username : String) (bindings : List Binding)
    (acc : Option Binding)
    (h : ∀ b ∈ bindings, userAlreadyHasAccess b.subjects username = false) :
    grantScan bindingName username bindings acc =
      (match lastNamed bindingName bindings acc with
       | some b => GrantAction.update b
       | none => GrantAction.create) := by
  induction bindings generalizing acc with
  | nil => rfl
  | cons b rest ih =>
    have hb := h b (List.mem_cons_self b rest)
    simp only [grantScan, lastNamed, List.foldl_cons, hb]
    exact ih _ (fun x hx => h x (List.mem_cons_of_mem _ hx))

theorem lastNamed_mem (bindingName : String) (bindings : List Binding)
    (acc : Option Binding) (b : Binding)
    (h : lastNamed bindingName bindings acc = some b) :
    (b ∈ bindings ∧ b.name = bindingName) ∨ acc = some b := by
  induction bindings generalizing acc with
  | nil => exact Or.inr h
  | cons x rest ih =>
    simp only [lastNamed, List.foldl_cons] at h
    rcases ih _ h with ⟨hmem, hname⟩ | hacc
    · exact Or.inl ⟨List.mem_cons_of_mem _ hmem, hname⟩
    · cases hxn : (x.name == bindingName) with
      | true =>
        rw [hxn, if_pos rfl] at hacc
        have hxb : x = b := by injection hacc
        subst hxb
        exact Or.inl ⟨List.mem_cons_self x rest, eq_of_beq hxn⟩
      | false =>
        rw [hxn] at hacc
        simp only [Bool.false_eq_true, if_false] at hacc
        exact Or.inr hacc

theorem countP_zero_of_no_access (subjects : List Subject) (username : String)
    (h : userAlreadyHasAccess subjects username = false) :
    subjects.countP (fun s => s.name == username && s.kind == subjectKindUser) = 0 := by
  rw [List.countP_eq_zero]
  intro s hs
  have := List.any_eq_false.mp h s hs
  simpa using this

theorem countUserSubjects_zero (bindings : List Binding) (username : String)
    (h : ∀ b ∈ bindings, userAlreadyHasAccess b.subjects username = false) :
    countUserSubjects bindings username = 0 := by
  apply List.sum_eq_zero
  intro x hx
  rcases List.mem_map.mp hx with ⟨b, hb, rfl⟩
  exact countP_zero_of_no_access _ _ (h b hb)

theorem access_append_new (subjects : List Subject) (username : String) :
    userAlreadyHasAccess (subjects ++ [newUserSubject username]) username = true := by
  simp [userAlreadyHasAccess, newUserSubject, subjectKindUser]

theorem countUserSubjects_cons (b : Binding) (rest : List Binding) (username : String) :
    countUserSubjects (b :: rest) username =
      b.subjects.countP (fun s => s.name == username && s.kind == subjectKindUser) +
      countUserSubjects rest username := by
  simp [countUserSubjects]

theorem countUserSubjects_update (bindings : List Binding) (username : String) (b : Binding)
    (hmem : b ∈ bindings) (hnodup : (bindings.map Binding.name).Nodup)
    (hzero : ∀ x ∈ bindings, userAlreadyHasAccess x.subjects username = false) :
    countUserSubjects
      (bindings.map fun x =>
        if x.name == b.name then { x with subjects := b.subjects ++ [newUserSubject username] }
        else x) username = 1 := by
  induction bindings with
  | nil => cases hmem
  | cons y rest ih =>
    rw [List.map_cons, List.nodup_cons] at hnodup
    rcases List.mem_cons.mp hmem with rfl | hbrest
    · have hrest : (rest.map fun x =>
          if x.name == b.name then { x with subjects := b.subjects ++ [newUserSubject username] }
          else x) = rest := by
        have hid : ∀ x ∈ rest, (fun x =>
            if x.name == b.name
            then { x with subjects := b.subjects ++ [newUserSubject username] } else x) x = x := by
          intro x hx
          have hne : x.name ≠ b.name := by
            intro hcontr
            exact hnodup.1 (hcontr ▸ List.mem_map_of_mem Binding.name hx)
          simp [hne]
        rw [List.map_congr_left hid, List.map_id']
      have h0b : b.subjects.countP
          (fun s => s.name == username && s.kind == subjectKindUser) = 0 :=
        countP_zero_of_no_access _ _ (hzero b (List.mem_cons_self b rest))
      have h2 : countUserSubjects rest username = 0 :=
        countUserSubjects_zero rest username
          (fun x hx => hzero x (List.mem_cons_of_mem _ hx))
      rw [List.map_cons, hrest, countUserSubjects_cons]
      simp [newUserSubject, subjectKindUser, List.countP_append, h0b, h2]
      intro a ha hname hkind
      exact (List.countP_eq_zero.mp h0b a ha) (by simp [hname, hkind, subjectKindUser])
    · have hyne : y.name ≠ b.name := by
        intro hcontr
        exact hnodup.1 (by rw [hcontr]; exact List.mem_map_of_mem Binding.name hbrest)
      have h0 : y.subjects.countP
          (fun s => s.name == username && s.kind == subjectKindUser) = 0 :=
        countP_zero_of_no_access _ _ (hzero y (List.mem_cons_self y rest))
      have htail := ih hbrest hnodup.2 (fun x hx => hzero x (List.mem_cons_of_mem _ hx))
      rw [List.map_cons, countUserSubjects_cons]
      simp only [hyne, if_neg, beq_eq_false_iff_ne.mpr hyne, Bool.false_eq_true, if_false]
      rw [htail, h0]

theorem handleBindingGrant_of_scan_satisfied (bindingName username : String)
    (bs : List Binding)
    (h : grantScan bindingName username bs none = GrantAction.alreadySatisfied) :
    handleBindingGrant bindingName username bs = (ProvisionOutcome.alreadyExists, bs) := by
  simp [handleBindingGrant, h]

/-- C2: granting the same (principal, role, scope) twice over an unchanged
set of matching bindings — with the resolved cluster username initially
absent from all of them and binding names unique (the cluster API enforces
name uniqueness) — yields the applied outcome then the already-satisfied
outcome, leaves the state of the second call identical to the first, and the
username then occurs exactly once among the subjects of the matching
bindings. -/
theorem c2_grant_idempotent (bindingName username : String) (bindings : List Binding)
    (hnodup : (bindings.map Binding.name).Nodup)
    (hfresh : ∀ b ∈ bindings, userAlreadyHasAccess b.subjects username = false) :
    (handleBindingGrant bindingName username bindings).1 = ProvisionOutcome.applied ∧
    (handleBindingGrant bindingName username
        (handleBindingGrant bindingName username bindings).2).1 =
      ProvisionOutcome.alreadyExists ∧
    (handleBindingGrant bindingName username
        (handleBindingGrant bindingName username bindings).2).2 =
      (handleBindingGrant bindingName username bindings).2 ∧
    countUserSubjects (handleBindingGrant bindingName username bindings).2 username = 1 := by
  have hscan := grantScan_fresh bindingName username bindings none hfresh
  cases hlast : lastNamed bindingName bindings none with
  | none =>
    rw [hlast] at hscan
    have hstate : (handleBindingGrant bindingName username bindings).2 =
        bindings ++ [{ name := bindingName, subjects := [newUserSubject username] }] := by
      simp [handleBindingGrant, hscan]
    have hout : (handleBindingGrant bindingName username bindings).1 =
        ProvisionOutcome.applied := by
      simp [handleBindingGrant, hscan]
    have hexists : ∃ b ∈ (handleBindingGrant bindingName username bindings).2,
        userAlreadyHasAccess b.subjects username = true := by
      refine ⟨{ name := bindingName, subjects := [newUserSubject username] }, ?_, ?_⟩
      · rw [hstate]; exact List.mem_append_right _ (List.mem_singleton.mpr rfl)
      · simp [userAlreadyHasAccess, newUserSubject, subjectKindUser]
    have hsecond := handleBindingGrant_of_scan_satisfied bindingName username _
      (grantScan_of_exists bindingName username _ none hexists)
    refine ⟨hout, by rw [hsecond], by rw [hsecond], ?_⟩
    rw [hstate]
    simp [countUserSubjects, List.map_append, List.sum_append, newUserSubject, subjectKindUser]
    have h2 := countUserSubjects_zero bindings username hfresh
    simpa [countUserSubjects, subjectKindUser] using h2
  | some b =>
    rw [hlast] at hscan
    have hb : b ∈ bindings ∧ b.name = bindingName := by
      rcases lastNamed_mem bindingName bindings none b hlast with h | h
      · exact h
      · cases h
    have hstate : (handleBindingGrant bindingName username bindings).2 =
        bindings.map fun x =>
          if x.name == b.name then { x with subjects := b.subjects ++ [newUserSubject username] }
          else x := by
      simp [handleBindingGrant, hscan]
    have hout : (handleBindingGrant bindingName username bindings).1 =
        ProvisionOutcome.applied := by
      simp [handleBindingGrant, hscan]
    have hexists : ∃ x ∈ (handleBindingGrant bindingName username bindings).2,
        userAlreadyHasAccess x.subjects username = true := by
      refine ⟨{ b with subjects := b.subjects ++ [newUserSubject username] }, ?_, ?_⟩
      · rw [hstate]
        have := List.mem_map_of_mem
          (fun x => if x.name == b.name
            then { x with subjects := b.subjects ++ [newUserSubject username] } else x) hb.1
        simpa using this
      · exact access_append_new b.subjects username
    have hsecond := handleBindingGrant_of_scan_satisfied bindingName username _
      (grantScan_of_exists bindingName username _ none hexists)
    refine ⟨hout, by rw [hsecond], by rw [hsecond], ?_⟩
    rw [hstate]
    exact countUserSubjects_update bindings username b hb.1 hnodup hfresh

theorem c2_grant_idempotent_witness :
    (handleBindingGrant "baton-view-binding" "arn:aws:iam::111:user/alice" []).1 =
      ProvisionOutcome.applied ∧
    (handleBindingGrant "baton-view-binding" "arn:aws:iam::111:user/alice"
        (handleBindingGrant "baton-view-binding" "arn:aws:iam::111:user/alice" []).2).1 =
      ProvisionOutcome.alreadyExists ∧
    (handleBindingGrant "baton-view-binding" "arn:aws:iam::111:user/alice"
        (handleBindingGrant "baton-view-binding" "arn:aws:iam::111:user/alice" []).2).2 =
      (handleBindingGrant "baton-view-binding" "arn:aws:iam::111:user/alice" []).2 ∧
    countUserSubjects (handleBindingGrant "baton-view-binding" "arn:aws:iam::111:user/alice" []).2
      "arn:aws:iam::111:user/alice" = 1 :=
  c2_grant_idempotent "baton-view-binding" "arn:aws:iam::111:user/alice" []
    (by simp) (by simp)

/-- C3: when a revoke removes a username from the binding found to contain
it, the binding is deleted when that username was its only subject, and when
other subjects remain the binding persists, updated to exactly its prior
subject list minus the subjects matching the username — never deleted. -/
theorem c3_revoke_cleanup (username : String) (bindings : List Binding) (b : Binding)
    (hfind : getExistingBindingForUser bindings username = some b) :
    (b.subjects = [newUserSubject username] →
      ∀ x ∈ (handleRevokeBinding username bindings).2, x.name ≠ b.name) ∧
    (filterSubjects b.subjects username ≠ [] →
      ∃ x ∈ (handleRevokeBinding username bindings).2,
        x.name = b.name ∧ x.subjects = filterSubjects b.subjects username) := by
  constructor
  · intro honly x hx
    have hempty : filterSubjects b.subjects username = [] := by
      simp [filterSubjects, honly, newUserSubject, subjectKindUser]
    simp only [handleRevokeBinding, hfind, hempty, handleBindingUpdateOrDelete,
      List.isEmpty_nil, if_true] at hx
    have := (List.mem_filter.mp hx).2
    simpa using this
  · intro hne
    have hmem : b ∈ bindings := List.mem_of_find?_eq_some hfind
    have hisEmpty : (filterSubjects b.subjects username).isEmpty = false := by
      cases hfe : filterSubjects b.subjects username with
      | nil => exact absurd hfe hne
      | cons c cs => simp
    refine ⟨{ b with subjects := filterSubjects b.subjects username }, ?_, rfl, rfl⟩
    simp only [handleRevokeBinding, hfind, handleBindingUpdateOrDelete, hisEmpty,
      Bool.false_eq_true, if_false]
    have := List.mem_map_of_mem
      (fun x => if x.name == b.name
        then { x with subjects := filterSubjects b.subjects username } else x) hmem
    simpa using this

theorem c3_revoke_cleanup_witness :
    (∃ x ∈ (handleRevokeBinding "arn:aws:iam::111:user/alice"
        [{ name := "baton-view-binding",
           subjects := [newUserSubject "arn:aws:iam::111:user/alice",
                        newUserSubject "arn:aws:iam::111:user/bob"] }]).2,
      x.name = "baton-view-binding" ∧
      x.subjects = filterSubjects
        [newUserSubject "arn:aws:iam::111:user/alice", newUserSubject "arn:aws:iam::111:user/bob"]
        "arn:aws:iam::111:user/alice") :=
  (c3_revoke_cleanup "arn:aws:iam::111:user/alice"
      [{ name := "baton-view-binding",
         subjects := [newUserSubject "arn:aws:iam::111:user/alice",
                      newUserSubject "arn:aws:iam::111:user/bob"] }]
      { name := "baton-view-binding",
        subjects := [newUserSubject "arn:aws:iam::111:user/alice",
                     newUserSubject "arn:aws:iam::111:user/bob"] }
      (by simp [getExistingBindingForUser, userAlreadyHasAccess, newUserSubject,
        subjectKindUser])).2
    (by simp [filterSubjects, newUserSubject, subjectKindUser])

/-! ## Claims about the access-policy scope merger (C4, C9) -/

/-- C4: an access-policy grant that requests a namespace scope while the
principal already holds a cluster-scoped association for the same policy
returns a conflict error, leaves the cluster association unchanged, and
issues no associate or disassociate call (the only calls made are the
access-entry ensure-exists and the scope read). -/
theorem c4_scope_conflict (entitlementId : String) (env : PolicyEnv) (ps : EksAccessScope)
    (hscope : (parseEntitlementScope entitlementId).type = ScopeType.namespaceScoped)
    (hps : env.association = some ps) (hpstype : ps.type = ScopeType.cluster)
    (hcreate : env.createEntryOk = true) :
    (∃ msg, (accessPolicyGrant "iam_user" entitlementId env).1 = Except.error msg) ∧
    (accessPolicyGrant "iam_user" entitlementId env).2.2 = env.association ∧
    (accessPolicyGrant "iam_user" entitlementId env).2.1 =
      [PolicyCall.createAccessEntry, PolicyCall.getPolicyScope] ∧
    (∀ s, PolicyCall.associate s ∉ (accessPolicyGrant "iam_user" entitlementId env).2.1) ∧
    PolicyCall.disassociate ∉ (accessPolicyGrant "iam_user" entitlementId env).2.1 := by
  have heval : accessPolicyGrant "iam_user" entitlementId env =
      (Except.error
        "try to grant a namespace scoped policy, but user already has a cluster scoped policy",
       [PolicyCall.createAccessEntry, PolicyCall.getPolicyScope], env.association) := by
    simp [accessPolicyGrant, hscope, hps, hpstype, hcreate]
  rw [heval]
  refine ⟨⟨_, rfl⟩, rfl, rfl, by simp, by simp⟩

theorem c4_scope_conflict_witness :
    (∃ msg, (accessPolicyGrant "iam_user" "access_policy:arn:p:assigned:default"
        { association := some { type := ScopeType.cluster, namespaces := [] },
          createEntryOk := true, associateOk := true, disassociateOk := true }).1 =
      Except.error msg) ∧
    (accessPolicyGrant "iam_user" "access_policy:arn:p:assigned:default"
        { association := some { type := ScopeType.cluster, namespaces := [] },
          createEntryOk := true, associateOk := true, disassociateOk := true }).2.2 =
      some { type := ScopeType.cluster, namespaces := [] } := by
  have h := c4_scope_conflict "access_policy:arn:p:assigned:default"
    { association := some { type := ScopeType.cluster, namespaces := [] },
      createEntryOk := true, associateOk := true, disassociateOk := true }
    { type := ScopeType.cluster, namespaces := [] } (by decide) rfl rfl rfl
  exact ⟨h.1, h.2.1⟩

/-- C9 counterexample: a cluster-scoped access-policy revoke for a principal
with no association does not return the already-revoked outcome — the code
never consults the association on the cluster path and goes straight to
`DisassociateAccessPolicy`, returning a plain success. -/
theorem c9_counterexample :
    (accessPolicyRevoke "iam_user" "access_policy:arn:p:assigned:cluster"
        { association := none, createEntryOk := true,
          associateOk := true, disassociateOk := true }).1 =
      Except.ok ProvisionOutcome.applied ∧
    (ProvisionOutcome.applied == ProvisionOutcome.alreadyRevoked) = false ∧
    (accessPolicyRevoke "iam_user" "access_policy:arn:p:assigned:cluster"
        { association := none, createEntryOk := true,
          associateOk := true, disassociateOk := true }).2.1 =
      [PolicyCall.disassociate] := by
  refine ⟨rfl, rfl, rfl⟩

/-- C9 (amended): a namespace-scoped revoke for a principal with no
association returns already-revoked; a cluster-scoped revoke never reads the
association and issues an unconditional disassociate, returning plain
success (no already-revoked signal) when that call succeeds. -/
theorem c9_revoke_no_association (entitlementId : String) (env : PolicyEnv) :
    ((parseEntitlementScope entitlementId).type = ScopeType.namespaceScoped →
      env.association = none →
      accessPolicyRevoke "iam_user" entitlementId env =
        (Except.ok ProvisionOutcome.alreadyRevoked, [PolicyCall.getPolicyScope], none)) ∧
    ((parseEntitlementScope entitlementId).type = ScopeType.cluster →
      env.disassociateOk = true →
      accessPolicyRevoke "iam_user" entitlementId env =
        (Except.ok ProvisionOutcome.applied, [PolicyCall.disassociate], none)) := by
  constructor
  · intro hscope hassoc
    simp [accessPolicyRevoke, hscope, hassoc]
  · intro hscope hok
    simp [accessPolicyRevoke, hscope, disassociateStep, hok]

theorem c9_revoke_no_association_witness :
    accessPolicyRevoke "iam_user" "access_policy:arn:p:assigned:default"
        { association := none, createEntryOk := true,
          associateOk := true, disassociateOk := true } =
      (Except.ok ProvisionOutcome.alreadyRevoked, [PolicyCall.getPolicyScope], none) :=
  (c9_revoke_no_association "access_policy:arn:p:assigned:default"
    { association := none, createEntryOk := true,
      associateOk := true, disassociateOk := true }).1 (by decide) rfl

/-! ## Claim about principal-type guards (C10) -/

/-- Whether a provisioning result is an error. -/
def isErrorResult (r : Except String ProvisionOutcome) : Bool :=
  match r with
  | Except.error _ => true
  | Except.ok _ => false

/-- C10 counterexample: a cluster-role revoke whose principal is not an IAM
user (here an IAM role) does not return an error — the revoke path has no
principal-type guard; with no aws-auth mapping for the principal it returns
the already-revoked success outcome. -/
theorem c10_counterexample :
    (clusterRoleRevokeOp "iam_role" "arn:aws:iam::111:role/dev" "view"
        "cluster_role:view:all:member" (Except.ok none)
        { roleBindings := [], clusterRoleBindings := [] }).1 =
      Except.ok ProvisionOutcome.alreadyRevoked ∧
    isErrorResult
      (clusterRoleRevokeOp "iam_role" "arn:aws:iam::111:role/dev" "view"
        "cluster_role:view:all:member" (Except.ok none)
        { roleBindings := [], clusterRoleBindings := [] }).1 = false := by
  refine ⟨rfl, rfl⟩

/-- C10 (amended): the three Grant entry points and the access-policy Revoke
reject a non-IAM-user principal with an error before any mutation (no calls
issued, association and bindings unchanged, no aws-auth mapping written);
the role and cluster-role Revoke paths, however, perform no principal-type
check at all: for any principal type, when the aws-auth lookup finds no
mapping they return the already-revoked success outcome. -/
theorem c10_principal_type_guards
    (principalType principalArn clusterRoleName entitlementId : String)
    (parsed : Except String (String × String)) (env : PolicyEnv) (aenv : AwsAuthEnv)
    (world : BindingWorld) (lookup : Except String (Option String))
    (hpt : principalType ≠ "iam_user") :
    (∃ msg, (accessPolicyGrant principalType entitlementId env).1 = Except.error msg) ∧
    (accessPolicyGrant principalType entitlementId env).2.1 = [] ∧
    (accessPolicyGrant principalType entitlementId env).2.2 = env.association ∧
    (∃ msg, (accessPolicyRevoke principalType entitlementId env).1 = Except.error msg) ∧
    (accessPolicyRevoke principalType entitlementId env).2.1 = [] ∧
    (accessPolicyRevoke principalType entitlementId env).2.2 = env.association ∧
    (∃ msg, (clusterRoleGrantOp principalType principalArn clusterRoleName entitlementId
      aenv world).1 = Except.error msg) ∧
    (clusterRoleGrantOp principalType principalArn clusterRoleName entitlementId
      aenv world).2 = (world, false) ∧
    (∃ msg, (roleGrantOp principalType principalArn parsed entitlementId aenv world).1 =
      Except.error msg) ∧
    (roleGrantOp principalType principalArn parsed entitlementId aenv world).2 =
      (world, false) ∧
    (∀ ns, entitlementId ≠ "" → getNamespaceFromEntitlementID entitlementId = Except.ok ns →
      lookup = Except.ok none →
      clusterRoleRevokeOp principalType principalArn clusterRoleName entitlementId lookup
        world = (Except.ok ProvisionOutcome.alreadyRevoked, world)) ∧
    (∀ p, parsed = Except.ok p → lookup = Except.ok none →
      roleRevokeOp principalType principalArn parsed lookup world =
        (Except.ok ProvisionOutcome.alreadyRevoked, world)) := by
  have hg : accessPolicyGrant principalType entitlementId env =
      (Except.error "principal is not an IAM user", [], env.association) := by
    simp [accessPolicyGrant, hpt]
  have hr : accessPolicyRevoke principalType entitlementId env =
      (Except.error "principal is not an IAM user", [], env.association) := by
    simp [accessPolicyRevoke, hpt]
  have hcg : clusterRoleGrantOp principalType principalArn clusterRoleName entitlementId
      aenv world = (Except.error "principal type is not supported", world, false) := by
    simp [clusterRoleGrantOp, hpt]
  have hrg : roleGrantOp principalType principalArn parsed entitlementId aenv world =
      (Except.error "principal type is not supported", world, false) := by
    simp [roleGrantOp, hpt]
  refine ⟨⟨_, by rw [hg]⟩, by rw [hg], by rw [hg], ⟨_, by rw [hr]⟩, by rw [hr], by rw [hr],
    ⟨_, by rw [hcg]⟩, by rw [hcg], ⟨_, by rw [hrg]⟩, by rw [hrg], ?_, ?_⟩
  · intro ns hne hparse hlookup
    simp [clusterRoleRevokeOp, hne, hparse, hlookup]
  · intro p hparse hlookup
    simp [roleRevokeOp, hparse, hlookup]

theorem c10_principal_type_guards_witness :
    (∃ msg, (accessPolicyGrant "iam_role" "access_policy:arn:p:assigned:cluster"
        { association := none, createEntryOk := true,
          associateOk := true, disassociateOk := true }).1 = Except.error msg) ∧
    clusterRoleRevokeOp "iam_role" "arn:aws:iam::111:role/dev" "view"
        "cluster_role:view:all:member" (Except.ok none)
        { roleBindings := [], clusterRoleBindings := [] } =
      (Except.ok ProvisionOutcome.alreadyRevoked,
       { roleBindings := [], clusterRoleBindings := [] }) := by
  have h := c10_principal_type_guards "iam_role" "arn:aws:iam::111:role/dev" "view"
    "cluster_role:view:all:member" (Except.ok ("default", "r"))
    { association := none, createEntryOk := true, associateOk := true, disassociateOk := true }
    { lookup := Except.ok none, addOk := true }
    { roleBindings := [], clusterRoleBindings := [] } (Except.ok none) (by decide)
  exact ⟨h.1, h.2.2.2.2.2.2.2.2.2.2.1 "" (by decide) rfl rfl⟩

/-! ## Claim about the username fallback (C7) -/

/-- C7 counterexample: a `mapUsers` row with an empty username contributes
nothing to the users map — the aws-auth reader has no ARN-self-mapping
fallback, so the ARN does not map to itself. -/
theorem c7_counterexample :
    awsAuthUsersMap
        [{ userARN := "arn:aws:iam::111:user/alice", username := "", groups := [] }] []
        "arn:aws:iam::111:user/alice" = [] ∧
    (([] : List String).contains "arn:aws:iam::111:user/alice") = false := by
  refine ⟨rfl, rfl⟩

/-- C7 (amended): the aws-auth reader skips `mapUsers` and `mapRoles` rows
whose username is empty when building the users map; the use-the-ARN-itself
fallback exists only in the access-entry reader, where an eligible entry with
an absent or empty username appends the principal ARN to its own users-map
bucket. -/
theorem c7_empty_username_skipped (users : List mapUser) (roles : List mapRole)
    (u : mapUser) (r : mapRole) (entries : List accessEntry) (e : accessEntry)
    (hu : u.username = "") (hr : r.username = "")
    (he : accessEntryEligible e = true) (hue : e.username = none ∨ e.username = some "") :
    awsAuthUsersMap (users ++ [u]) roles = awsAuthUsersMap users roles ∧
    awsAuthUsersMap users (roles ++ [r]) = awsAuthUsersMap users roles ∧
    accessEntriesUsersMap (entries ++ [e]) e.principalArn =
      accessEntriesUsersMap entries e.principalArn ++ [e.principalArn] := by
  refine ⟨?_, ?_, ?_⟩
  · simp [awsAuthUsersMap, List.foldl_append, awsAuthUserStep, hu]
  · simp [awsAuthUsersMap, List.foldl_append, awsAuthUserStep, hr]
  · rcases hue with h | h <;>
      simp [accessEntriesUsersMap, List.foldl_append, accessEntryUserStep, he, h, mapAdd]

theorem c7_empty_username_skipped_witness :
    awsAuthUsersMap
        ([] ++ [{ userARN := "arn:aws:iam::111:user/alice", username := "",
                  groups := [] }]) [] = awsAuthUsersMap [] [] ∧
    accessEntriesUsersMap
        ([] ++ [{ principalArn := "arn:aws:iam::1:user/x",
                  type := some "STANDARD", username := none, kubernetesGroups := [] }])
        "arn:aws:iam::1:user/x" =
      accessEntriesUsersMap [] "arn:aws:iam::1:user/x" ++ ["arn:aws:iam::1:user/x"] := by
  have h := c7_empty_username_skipped [] []
    { userARN := "arn:aws:iam::111:user/alice", username := "", groups := [] }
    { roleARN := "arn:aws:iam::111:role/dev", username := "", groups := [] } []
    { principalArn := "arn:aws:iam::1:user/x", type := some "STANDARD",
      username := none, kubernetesGroups := [] }
    rfl rfl (by decide) (Or.inl rfl)
  exact ⟨h.1, h.2.2⟩

/-! ## Claim about entitlement-scope decoding (C8) -/

theorem splitFirst_append_self (p : Char) (ps b : List Char) :
    splitFirst (p :: ps) ((p :: ps) ++ b) = some b := by
  have hpre : (p :: ps).isPrefixOf (p :: (ps ++ b)) = true := by
    rw [← List.cons_append]
    exact List.isPrefixOf_iff_prefix.mpr (List.prefix_append _ _)
  rw [List.cons_append]
  simp only [splitFirst, hpre, if_true]
  rw [← List.cons_append, List.drop_left]

theorem splitFirst_first_occurrence (pat : List Char) (hpat : pat ≠ []) :
    ∀ a b : List Char, hasOccur pat (a ++ pat.dropLast) = false →
      splitFirst pat (a ++ pat ++ b) = some b := by
  intro a
  induction a with
  | nil =>
    intro b _
    cases pat with
    | nil => exact absurd rfl hpat
    | cons p ps => simpa using splitFirst_append_self p ps b
  | cons c a' ih =>
    intro b h
    simp only [List.cons_append, List.append_eq, hasOccur, Bool.or_eq_false_iff] at h
    obtain ⟨hfirst, hrest⟩ := h
    rw [List.append_assoc, List.cons_append]
    simp only [splitFirst]
    cases hx : pat.isPrefixOf (c :: (a' ++ (pat ++ b))) with
    | false =>
      simp only [hx, Bool.false_eq_true, if_false]
      have := ih b hrest
      rwa [List.append_assoc] at this
    | true =>
      exfalso
      have hp1 : pat <+: c :: (a' ++ (pat ++ b)) := List.isPrefixOf_iff_prefix.mp hx
      have hp2 : c :: (a' ++ pat.dropLast) <+: c :: (a' ++ (pat ++ b)) := by
        rw [← List.cons_append, ← List.cons_append]
        exact (List.prefix_append_right_inj (c :: a')).mpr
          ((List.dropLast_prefix pat).trans (List.prefix_append pat b))
      have hlen : pat.length ≤ (c :: (a' ++ pat.dropLast)).length := by
        simp only [List.length_cons, List.length_append, List.length_dropLast]
        cases pat with
        | nil => exact absurd rfl hpat
        | cons q qs => simp
      have hp3 : pat <+: c :: (a' ++ pat.dropLast) :=
        List.prefix_of_prefix_length_le hp1 hp2 hlen
      have hcontr := List.isPrefixOf_iff_prefix.mpr hp3
      rw [hfirst] at hcontr
      exact Bool.false_ne_true hcontr

/-- C8 counterexample: an input with no `":assigned:"` separator is not
rejected — `parseEntitlementScope` is total and yields the defaulted cluster
scope for it. -/
theorem c8_counterexample :
    splitFirst assignedSep "garbage".data = none ∧
    parseEntitlementScope "garbage" = clusterScope := by
  exact ⟨rfl, rfl⟩

/-- C8 (amended): for well-formed identifiers `kind:id:assigned:scope` whose
`kind:id` segment produces no earlier `":assigned:"` occurrence, decoding
recovers exactly the encoded scope (`"cluster"` decodes to cluster scope, any
other scope string to the singleton namespace scope); but an input in which
the separator never occurs is not rejected with an error — it decodes to the
cluster-scope fallback. -/
theorem c8_entitlement_scope_roundtrip (kind objectId scope : String)
    (hclean : hasOccur assignedSep
      ((kind ++ ":" ++ objectId).data ++ assignedSep.dropLast) = false) :
    (scope = "cluster" →
      parseEntitlementScope (scopedEntitlementId kind objectId scope) = clusterScope) ∧
    (scope ≠ "cluster" →
      parseEntitlementScope (scopedEntitlementId kind objectId scope) =
        { type := ScopeType.namespaceScoped, namespaces := [scope] }) ∧
    (∀ s : String, splitFirst assignedSep s.data = none →
      parseEntitlementScope s = clusterScope) := by
  have hdata : (scopedEntitlementId kind objectId scope).data =
      (kind ++ ":" ++ objectId).data ++ assignedSep ++ scope.data := by
    simp [scopedEntitlementId, assignedSep, String.data_append, List.append_assoc]
  have hsplit : splitFirst assignedSep (scopedEntitlementId kind objectId scope).data =
      some scope.data := by
    rw [hdata]
    exact splitFirst_first_occurrence assignedSep (by decide) _ _ hclean
  have hmk : String.mk scope.data = scope := rfl
  refine ⟨?_, ?_, ?_⟩
  · intro hs
    subst hs
    have hmkc : (String.mk "cluster".data) = "cluster" := rfl
    simp [parseEntitlementScope, hsplit, hmkc]
  · intro hs
    simp [parseEntitlementScope, hsplit, hmk, hs]
  · intro s hnone
    simp [parseEntitlementScope, hnone]

theorem c8_entitlement_scope_roundtrip_witness :
    parseEntitlementScope (scopedEntitlementId "access_policy" "arn:p" "default") =
      { type := ScopeType.namespaceScoped, namespaces := ["default"] } ∧
    parseEntitlementScope (scopedEntitlementId "access_policy" "arn:p" "cluster") =
      clusterScope := by
  have h1 := c8_entitlement_scope_roundtrip "access_policy" "arn:p" "default" (by decide)
  have h2 := c8_entitlement_scope_roundtrip "access_policy" "arn:p" "cluster" (by decide)
  exact ⟨h1.2.1 (by decide), h2.1 rfl⟩

end BatonEks
